import Mathlib

/-!
Shallow embedding of `gewv_timeseries_client/timeseries_client.py`.

The repository is a thin facade over the external `influxdb_client` library.
The logic original to the repository — the Flux query builder `build_query`,
the timestamp validator `test_datetime`, constructor validation in `__init__`,
the 422-swallowing `create_bucket`, the health guard in `get_points` /
`get_dataframe`, and the tag enrichment in `write_a_dataframe` — is embedded
below.  Python exceptions are modelled with `Except`; the external client and
its delegates are modelled as records; the outcome of an external call is an
explicit parameter where the code's behaviour depends on it.
-/

/-- Model of Python `datetime.datetime`.  `tzinfo` is the UTC offset of the
attached timezone in minutes (`none` = naive datetime, as produced by
`datetime(...)` without a `tzinfo` argument). -/
structure Datetime where
  year : Nat
  month : Nat
  day : Nat
  hour : Nat
  minute : Nat
  second : Nat
  microsecond : Nat
  tzinfo : Option Int
deriving DecidableEq, Repr

/-- Zero padding `%02d` used by `datetime.isoformat`. -/
def pad2 (n : Nat) : String :=
  if n < 10 then "0" ++ toString n else toString n

/-- Zero padding `%04d` for the year component of `datetime.isoformat`. -/
def pad4 (n : Nat) : String :=
  if n < 10 then "000" ++ toString n
  else if n < 100 then "00" ++ toString n
  else if n < 1000 then "0" ++ toString n
  else toString n

/-- Zero padding `%06d` for the microsecond component of `datetime.isoformat`. -/
def pad6 (n : Nat) : String :=
  if n < 10 then "00000" ++ toString n
  else if n < 100 then "0000" ++ toString n
  else if n < 1000 then "000" ++ toString n
  else if n < 10000 then "00" ++ toString n
  else if n < 100000 then "0" ++ toString n
  else toString n

/-- Rendering of a fixed UTC offset (in minutes) as Python's
`datetime.isoformat` renders it: `±HH:MM`. -/
def utcoffsetStr (off : Int) : String :=
  (if off < 0 then "-" else "+") ++ pad2 (off.natAbs / 60) ++ ":" ++ pad2 (off.natAbs % 60)

/-- The date/time part of `datetime.isoformat()` (everything before the
offset): `YYYY-MM-DDTHH:MM:SS[.ffffff]`, microseconds printed only when
nonzero. -/
def Datetime.isoformatBase (d : Datetime) : String :=
  pad4 d.year ++ "-" ++ pad2 d.month ++ "-" ++ pad2 d.day ++ "T" ++
    pad2 d.hour ++ ":" ++ pad2 d.minute ++ ":" ++ pad2 d.second ++
    (if d.microsecond = 0 then "" else "." ++ pad6 d.microsecond)

/-- Python `datetime.isoformat()`: the date/time part followed by the UTC
offset (`±HH:MM`) when the datetime is timezone-aware, nothing when naive. -/
def Datetime.isoformat (d : Datetime) : String :=
  d.isoformatBase ++
    (match d.tzinfo with
     | none => ""
     | some off => utcoffsetStr off)

/-- A Python value passed where the annotations say `datetime`: Python is
dynamically typed, so the caller may pass something that is not a `datetime`
at all (the `isinstance` check in `test_datetime` exists for this reason). -/
inductive PyValue where
  | datetime (d : Datetime)
  | notADatetime
deriving DecidableEq, Repr

/-- Python `.isoformat()` on such a value.  The `notADatetime` branch is unreachable
in the embedded code: `build_query` calls `.isoformat()` only after
`test_datetime` has accepted the value (Python would raise `AttributeError`
there). -/
def PyValue.isoformat : PyValue → String
  | .datetime d => d.isoformat
  | .notADatetime => ""

/-- The exceptions raised by the repository's own code (all are plain
`Exception`s in the source; the constructors here name the distinct raise
sites, following the spec's taxonomy: the first two form
`InvalidTimestampError`, the `missing*` ones `ConfigurationError`,
`unreachable` the `UnreachableError`). -/
inductive PyError where
  | invalidTimestampType
  | invalidTimestampNaive
  | missingHost
  | missingPort
  | missingToken
  | unreachable
deriving DecidableEq, Repr

/-- Which `PyError`s belong to the spec's `InvalidTimestampError` class (the
two raise sites of `test_datetime`). -/
def PyError.isInvalidTimestamp : PyError → Bool
  | .invalidTimestampType => true
  | .invalidTimestampNaive => true
  | _ => false

/-- Model of `TimeseriesClient.test_datetime`: raise if the argument is not a
`datetime` instance, then raise if its `tzinfo` is `None`. -/
def test_datetime : PyValue → Except PyError Unit
  | .notADatetime => .error .invalidTimestampType
  | .datetime d =>
      if d.tzinfo = none then .error .invalidTimestampNaive else .ok ()

/-- The first f-string chunk of `build_query`:
`query = f"""\n            from(bucket: "{project}")\n        """`. -/
def fromClauseStr (project : String) : String :=
  "\n            from(bucket: \"" ++ project ++ "\")\n        "

/-- The f-string chunk appended when both bounds are given. -/
def rangeStartStopStr (startIso stopIso : String) : String :=
  "\n                |> range(start: " ++ startIso ++ ", stop: " ++ stopIso ++ ")\n            "

/-- The f-string chunk appended when only `start_time` is given. -/
def rangeStartStr (startIso : String) : String :=
  "\n                |> range(start: " ++ startIso ++ ")\n            "

/-- The f-string chunk appended when only `end_time` is given. -/
def rangeStopStr (stopIso : String) : String :=
  "\n                |> range(stop: " ++ stopIso ++ ")\n            "

/-- The f-string chunk appended by one iteration of the filter loop. -/
def filterClauseStr (f v : String) : String :=
  "\n                |> filter(fn: (r) => r[\"" ++ f ++ "\"] == \"" ++ v ++ "\")\n            "

/-- The final f-string chunk: windowed mean aggregation plus yield. -/
def aggregateClauseStr (precision : String) : String :=
  "\n            |> aggregateWindow(every: " ++ precision ++ ", fn: mean, createEmpty: true)\n            |> yield(name: \"mean\")\n        "

/-- The `for f, v in fields.items()` loop of `build_query`: one filter chunk
appended per mapping entry, in iteration (= insertion) order; the mapping is
modelled as an association list in iteration order. -/
def filterClauses : List (String × String) → String
  | [] => ""
  | (f, v) :: rest => filterClauseStr f v ++ filterClauses rest

/-- Python default of the `precision` parameter of `build_query`. -/
def defaultPrecision : String := "5m"

/-- Model of `TimeseriesClient.build_query`.  `fields` is the `Dict[str, str]` in
iteration order; `start_time` / `end_time` are `Optional[datetime]`
parameters (`none` = Python `None`); a raised exception is an `Except.error`.
The control flow mirrors the source: emit the `from` chunk; then
`if start_time is not None and end_time is not None` validate both and append
the two-sided range chunk, `elif start_time is not None` the start-only
chunk, `elif end_time is not None` the stop-only chunk, else nothing; then
one filter chunk per `fields` entry; then the aggregate/yield chunk. -/
def build_query (project : String) (fields : List (String × String))
    (start_time : Option PyValue) (end_time : Option PyValue)
    (precision : String) : Except PyError String := do
  let query := fromClauseStr project
  let query ←
    match start_time, end_time with
    | some s, some e => do
        test_datetime s
        test_datetime e
        pure (query ++ rangeStartStopStr s.isoformat e.isoformat)
    | some s, none => do
        test_datetime s
        pure (query ++ rangeStartStr s.isoformat)
    | none, some e => do
        test_datetime e
        pure (query ++ rangeStopStr e.isoformat)
    | none, none => pure query
  pure (query ++ filterClauses fields ++ aggregateClauseStr precision)

/-- A clause of the generated Flux pipeline, one constructor per f-string
chunk that `build_query` can append. -/
inductive Clause where
  | fromBucket (project : String)
  | rangeStartStop (startIso stopIso : String)
  | rangeStart (startIso : String)
  | rangeStop (stopIso : String)
  | filter (field value : String)
  | aggregateWindow (precision : String)
deriving DecidableEq, Repr

/-- The exact text `build_query` appends for a clause. -/
def Clause.render : Clause → String
  | .fromBucket project => fromClauseStr project
  | .rangeStartStop s e => rangeStartStopStr s e
  | .rangeStart s => rangeStartStr s
  | .rangeStop e => rangeStopStr e
  | .filter f v => filterClauseStr f v
  | .aggregateWindow p => aggregateClauseStr p

/-- Is the clause a `range` clause (any of the three shapes)? -/
def Clause.isRange : Clause → Bool
  | .rangeStartStop _ _ => true
  | .rangeStart _ => true
  | .rangeStop _ => true
  | _ => false

/-- Is the clause a `filter` clause? -/
def Clause.isFilter : Clause → Bool
  | .filter _ _ => true
  | _ => false

/-- Concatenation of the rendered clauses, in emission order. -/
def renderClauses : List Clause → String
  | [] => ""
  | c :: rest => c.render ++ renderClauses rest

/-- View of `build_query` at the level of emitted clauses: same control flow
and validation as `build_query`, recording the sequence of appended chunks
instead of their concatenation. -/
def buildQueryClauses (project : String) (fields : List (String × String))
    (start_time : Option PyValue) (end_time : Option PyValue)
    (precision : String) : Except PyError (List Clause) := do
  let head := [Clause.fromBucket project]
  let head ←
    match start_time, end_time with
    | some s, some e => do
        test_datetime s
        test_datetime e
        pure (head ++ [Clause.rangeStartStop s.isoformat e.isoformat])
    | some s, none => do
        test_datetime s
        pure (head ++ [Clause.rangeStart s.isoformat])
    | none, some e => do
        test_datetime e
        pure (head ++ [Clause.rangeStop e.isoformat])
    | none, none => pure head
  pure (head ++ fields.map (fun fv => Clause.filter fv.1 fv.2) ++
    [Clause.aggregateWindow precision])

/-- Model of the external `InfluxDBClient` as far as this repository
observes it: the constructor arguments the facade passes to it. -/
structure InfluxDBClient where
  url : String
  token : String
  org : String
deriving DecidableEq, Repr

/-- The synchronous write delegate (`client.write_api(write_options=SYNCHRONOUS)`). -/
structure WriteApi where
  client : InfluxDBClient
  synchronous : Bool
deriving DecidableEq, Repr

/-- The query delegate (`client.query_api()`). -/
structure QueryApi where
  client : InfluxDBClient
deriving DecidableEq, Repr

/-- The bucket-administration delegate (`client.buckets_api()`). -/
structure BucketsApi where
  client : InfluxDBClient
deriving DecidableEq, Repr

/-- The facade object built by `TimeseriesClient.__init__`. -/
structure TimeseriesClient where
  _client : InfluxDBClient
  _write_api : WriteApi
  _query_api : QueryApi
  _bucket_api : BucketsApi
deriving DecidableEq, Repr

/-- Model of `TimeseriesClient.__init__`.  `host` / `port` / `token` / `client` are
optional keyword arguments defaulting to `None`; `organization` defaults to
`"GEWV"`.  When `client is None`, each of host, port, token is checked in
turn and a missing one raises; otherwise the supplied client is used.  The
three delegates are then derived from the chosen client. -/
def TimeseriesClient.init (host : Option String) (port : Option Nat)
    (organization : String) (token : Option String)
    (client : Option InfluxDBClient) : Except PyError TimeseriesClient := do
  let c ←
    match client with
    | none =>
        match host with
        | none => Except.error PyError.missingHost
        | some h =>
          match port with
          | none => Except.error PyError.missingPort
          | some p =>
            match token with
            | none => Except.error PyError.missingToken
            | some t =>
                pure { url := "https://" ++ h ++ ":" ++ toString p
                       token := t
                       org := organization : InfluxDBClient }
    | some c => pure c
  pure { _client := c
         _write_api := { client := c, synchronous := true }
         _query_api := { client := c }
         _bucket_api := { client := c } }

/-- The external `ApiException` raised by the influx client library, as far
as `create_bucket` inspects it: its HTTP status. -/
structure ApiException where
  status : Nat
deriving DecidableEq, Repr

/-- Outcome of the external `buckets_api.create_bucket` call: success, an
`ApiException`, or some other exception (which the `except ApiException`
handler does not catch). -/
inductive StoreOutcome where
  | success
  | apiError (e : ApiException)
  | otherError (msg : String)
deriving DecidableEq, Repr

/-- An exception escaping `create_bucket`. -/
inductive PyRaise where
  | api (e : ApiException)
  | other (msg : String)
deriving DecidableEq, Repr

/-- Model of `TimeseriesClient.create_bucket`, parametrised by the outcome of the
delegated call: `try: create_bucket(...) except ApiException as err: if
err.status != 422: raise`.  A 422 `ApiException` is swallowed; any other
`ApiException` is re-raised; a non-`ApiException` failure is not caught. -/
def create_bucket (delegateOutcome : StoreOutcome) : Except PyRaise Unit :=
  match delegateOutcome with
  | .success => .ok ()
  | .apiError e => if e.status ≠ 422 then .error (.api e) else .ok ()
  | .otherError m => .error (.other m)

/-- Model of a pandas `DataFrame` as this repository uses it: a row index
and named columns (each column a list of cell values, one per row). -/
structure DataFrame where
  index : List Nat
  cols : List (String × List String)
deriving DecidableEq, Repr

/-- Python `len(dataframe)`: the number of rows. -/
def DataFrame.len (df : DataFrame) : Nat := df.index.length

/-- Model of `pd.concat([a, b], axis=1)` in the case exercised by the source, where
`b` was constructed on `a`'s own index (so alignment is the identity): the
columns of `b` are appended to those of `a`. -/
def pdConcatAxis1 (a b : DataFrame) : DataFrame :=
  { index := a.index, cols := a.cols ++ b.cols }

/-- The keyword arguments `write_a_dataframe` forwards to
`self._write_api.write(...)`. -/
structure DataFrameWriteCall where
  bucket : String
  record : DataFrame
  data_frame_measurement_name : String
  data_frame_tag_columns : List String
deriving DecidableEq, Repr

/-- Model of `TimeseriesClient.write_a_dataframe`.  `tag_columns` holds the contents
of the caller-visible `tag_columns` list object at call time (the Python
parameter defaults to a module-level shared `[]`); `additional_tags` is the
`Dict[str, str]` in iteration order, `none` = Python `None`.  Returns the
forwarded write call together with the contents of that same `tag_columns`
list object after the call — the loop `tag_columns.append(tag_name)` mutates
it in place, one append and one broadcast column per mapping entry. -/
def write_a_dataframe (project measurement_name : String)
    (dataframe : DataFrame) (tag_columns : List String)
    (additional_tags : Option (List (String × String))) :
    DataFrameWriteCall × List String :=
  match additional_tags with
  | none =>
      ({ bucket := project
         record := dataframe
         data_frame_measurement_name := measurement_name
         data_frame_tag_columns := tag_columns }, tag_columns)
  | some tags =>
      let tag_columns := tag_columns ++ tags.map Prod.fst
      let tags_dataframe : DataFrame :=
        { index := dataframe.index
          cols := tags.map (fun tv => (tv.1, List.replicate dataframe.len tv.2)) }
      let combined_frames := pdConcatAxis1 dataframe tags_dataframe
      ({ bucket := project
         record := combined_frames
         data_frame_measurement_name := measurement_name
         data_frame_tag_columns := tag_columns }, tag_columns)

/-- In `get_points` / `get_dataframe` the guard is `if not self.health:`.
`self.health` is an attribute access producing a bound-method object (the
method is never called — no parentheses); a bound method is always truthy in
Python, so the guard's condition is `False` on every call. -/
def healthMethodRefTruthy (_self : TimeseriesClient) : Bool := true

/-- Model of `TimeseriesClient.get_points`.  `healthAnswer` is what `self.health()`
would return if it were invoked (it is not: the guard tests the method
reference, see `healthMethodRefTruthy`); `runQuery` models
`self._query_api.query`, mapping the query string to a list of tables. -/
def get_points (self : TimeseriesClient) (healthAnswer : Bool)
    (runQuery : String → List String) (project : String)
    (fields : List (String × String)) (start_time end_time : Option PyValue)
    (precision : String) : Except PyError (List String) :=
  if healthMethodRefTruthy self = false then
    Except.error PyError.unreachable
  else
    (build_query project fields start_time end_time precision).map runQuery

/-- Model of `TimeseriesClient.get_dataframe`: same guard, result materialized by
`self._query_api.query_data_frame`, modelled by `runQueryDf`. -/
def get_dataframe (self : TimeseriesClient) (healthAnswer : Bool)
    (runQueryDf : String → DataFrame) (project : String)
    (fields : List (String × String)) (start_time end_time : Option PyValue)
    (precision : String) : Except PyError DataFrame :=
  if healthMethodRefTruthy self = false then
    Except.error PyError.unreachable
  else
    (build_query project fields start_time end_time precision).map runQueryDf

/-- A concrete aware datetime used by witnesses: 2021-01-02T03:04:05+00:00. -/
def dtA : Datetime := ⟨2021, 1, 2, 3, 4, 5, 0, some 0⟩

/-- A concrete aware datetime used by witnesses: 2021-01-02T04:00:00+01:00. -/
def dtB : Datetime := ⟨2021, 1, 2, 4, 0, 0, 0, some 60⟩

/-- The condition under which `test_datetime` raises, i.e. the spec's notion
of an invalid timestamp argument: not a `datetime` instance, or a naive
(`tzinfo is None`) one. -/
def PyValue.invalidTimestamp : PyValue → Bool
  | .notADatetime => true
  | .datetime d => d.tzinfo.isNone

/-- A concrete external client used by witnesses. -/
def clientW : InfluxDBClient := ⟨"https://h:1", "t", "GEWV"⟩

/-- A concrete facade object used by witnesses. -/
def tcW : TimeseriesClient := ⟨clientW, ⟨clientW, true⟩, ⟨clientW⟩, ⟨clientW⟩⟩

/-- A concrete empty dataframe used by witnesses. -/
def dfW : DataFrame := ⟨[], []⟩

/-! ### Helper lemmas -/

theorem renderClauses_append (l₁ l₂ : List Clause) :
    renderClauses (l₁ ++ l₂) = renderClauses l₁ ++ renderClauses l₂ := by
  induction l₁ with
  | nil => simp [renderClauses]
  | cons c rest ih => simp [renderClauses, ih, String.append_assoc]

theorem renderClauses_filters (fields : List (String × String)) :
    renderClauses (fields.map fun fv => Clause.filter fv.1 fv.2) =
      filterClauses fields := by
  induction fields with
  | nil => rfl
  | cons fv rest ih => simp [renderClauses, filterClauses, Clause.render, ih]

theorem test_datetime_aware (d : Datetime) (h : d.tzinfo.isSome = true) :
    test_datetime (.datetime d) = .ok () := by
  simp only [test_datetime]
  rw [if_neg]
  intro hn
  simp [hn] at h

theorem utcoffsetStr_ne_empty (off : Int) : utcoffsetStr off ≠ "" := by
  intro h
  have hd := congrArg String.data h
  unfold utcoffsetStr at hd
  split at hd <;> simp at hd

theorem countP_isRange_filters (fields : List (String × String)) :
    List.countP Clause.isRange (fields.map fun fv => Clause.filter fv.1 fv.2) = 0 := by
  induction fields with
  | nil => rfl
  | cons fv rest ih => simp [List.countP_cons, Clause.isRange, ih]

/-! ### Claims -/

/-- C1: for every project, field mapping, precision and pair of
timezone-aware timestamps, `build_query` emits the time range clause by the
four cases — both bounds give exactly one `range(start: …, stop: …)` clause,
start only gives `range(start: …)`, end only gives `range(stop: …)`, neither
gives no range clause — and each timestamp is serialized by `isoformat` in
ISO-8601 with a non-empty offset suffix. -/
theorem c1_range_clause_cases (project : String) (fields : List (String × String))
    (precision : String) (ds de : Datetime)
    (hs : ds.tzinfo.isSome = true) (he : de.tzinfo.isSome = true) :
    build_query project fields (some (.datetime ds)) (some (.datetime de)) precision =
      .ok (fromClauseStr project ++ rangeStartStopStr ds.isoformat de.isoformat ++
        filterClauses fields ++ aggregateClauseStr precision) ∧
    build_query project fields (some (.datetime ds)) none precision =
      .ok (fromClauseStr project ++ rangeStartStr ds.isoformat ++
        filterClauses fields ++ aggregateClauseStr precision) ∧
    build_query project fields none (some (.datetime de)) precision =
      .ok (fromClauseStr project ++ rangeStopStr de.isoformat ++
        filterClauses fields ++ aggregateClauseStr precision) ∧
    build_query project fields none none precision =
      .ok (fromClauseStr project ++ filterClauses fields ++ aggregateClauseStr precision) ∧
    (buildQueryClauses project fields (some (.datetime ds)) (some (.datetime de))
        precision).map (fun cs => cs.countP Clause.isRange) = .ok 1 ∧
    (buildQueryClauses project fields (some (.datetime ds)) none
        precision).map (fun cs => cs.countP Clause.isRange) = .ok 1 ∧
    (buildQueryClauses project fields none (some (.datetime de))
        precision).map (fun cs => cs.countP Clause.isRange) = .ok 1 ∧
    (buildQueryClauses project fields none none
        precision).map (fun cs => cs.countP Clause.isRange) = .ok 0 ∧
    (∃ off, ds.tzinfo = some off ∧
      ds.isoformat = ds.isoformatBase ++ utcoffsetStr off ∧ utcoffsetStr off ≠ "") ∧
    (∃ off, de.tzinfo = some off ∧
      de.isoformat = de.isoformatBase ++ utcoffsetStr off ∧ utcoffsetStr off ≠ "") := by
  obtain ⟨offS, hoffS⟩ := Option.isSome_iff_exists.mp hs
  obtain ⟨offE, hoffE⟩ := Option.isSome_iff_exists.mp he
  refine ⟨?_, ?_, ?_, ?_, ?_, ?_, ?_, ?_, ?_, ?_⟩
  · simp [build_query, test_datetime_aware ds hs, test_datetime_aware de he,
      String.append_assoc, Bind.bind, Except.bind, Pure.pure, Except.pure,
      PyValue.isoformat]
  · simp [build_query, test_datetime_aware ds hs, String.append_assoc,
      Bind.bind, Except.bind, Pure.pure, Except.pure, PyValue.isoformat]
  · simp [build_query, test_datetime_aware de he, String.append_assoc,
      Bind.bind, Except.bind, Pure.pure, Except.pure, PyValue.isoformat]
  · simp [build_query, String.append_assoc, Bind.bind, Except.bind,
      Pure.pure, Except.pure]
  · simp [buildQueryClauses, test_datetime_aware ds hs, test_datetime_aware de he,
      Except.map, Bind.bind, Except.bind, Pure.pure, Except.pure,
      List.countP_append, List.countP_cons, Clause.isRange,
      countP_isRange_filters]
  · simp [buildQueryClauses, test_datetime_aware ds hs, Except.map,
      Bind.bind, Except.bind, Pure.pure, Except.pure,
      List.countP_append, List.countP_cons, Clause.isRange, countP_isRange_filters]
  · simp [buildQueryClauses, test_datetime_aware de he, Except.map,
      Bind.bind, Except.bind, Pure.pure, Except.pure,
      List.countP_append, List.countP_cons, Clause.isRange, countP_isRange_filters]
  · simp [buildQueryClauses, Except.map, Bind.bind, Except.bind, Pure.pure,
      Except.pure, List.countP_append, List.countP_cons,
      Clause.isRange, countP_isRange_filters]
  · exact ⟨offS, hoffS, by simp [Datetime.isoformat, hoffS], utcoffsetStr_ne_empty offS⟩
  · exact ⟨offE, hoffE, by simp [Datetime.isoformat, hoffE], utcoffsetStr_ne_empty offE⟩

/-- Witness for C1 at a concrete call. -/
theorem c1_range_clause_cases_witness :
    dtA.tzinfo.isSome = true ∧ dtB.tzinfo.isSome = true ∧
    build_query "proj" [("sensor", "s1")] (some (.datetime dtA)) (some (.datetime dtB))
        "5m" =
      .ok (fromClauseStr "proj" ++ rangeStartStopStr dtA.isoformat dtB.isoformat ++
        filterClauses [("sensor", "s1")] ++ aggregateClauseStr "5m") :=
  ⟨by decide, by decide,
    (c1_range_clause_cases "proj" [("sensor", "s1")] "5m" dtA dtB
      (by decide) (by decide)).1⟩

theorem filters_filter_self (fields : List (String × String)) :
    (fields.map fun fv => Clause.filter fv.1 fv.2).filter Clause.isFilter =
      fields.map fun fv => Clause.filter fv.1 fv.2 := by
  induction fields with
  | nil => rfl
  | cons fv rest ih => simp [List.filter_cons, Clause.isFilter, ih]

theorem countP_isFilter_filters (fields : List (String × String)) :
    List.countP Clause.isFilter (fields.map fun fv => Clause.filter fv.1 fv.2) =
      fields.length := by
  induction fields with
  | nil => rfl
  | cons fv rest ih => simp [List.countP_cons, Clause.isFilter, ih]

/-- Shape of every successful `build_query` run: the clause sequence is the
`from` clause, then the (zero or one) range clauses, then one filter clause
per `fields` entry, then the aggregate clause; the returned string is the
concatenation of their renderings. -/
theorem build_query_ok_shape (project : String) (fields : List (String × String))
    (st et : Option PyValue) (precision q : String)
    (h : build_query project fields st et precision = .ok q) :
    ∃ rangeClauses,
      buildQueryClauses project fields st et precision =
        .ok (Clause.fromBucket project ::
          (rangeClauses ++ (fields.map (fun fv => Clause.filter fv.1 fv.2) ++
            [Clause.aggregateWindow precision]))) ∧
      q = fromClauseStr project ++ (renderClauses rangeClauses ++
        (filterClauses fields ++ aggregateClauseStr precision)) ∧
      List.countP Clause.isFilter rangeClauses = 0 ∧
      (∀ c ∈ rangeClauses, Clause.isRange c = true) := by
  cases st with
  | none =>
    cases et with
    | none =>
      refine ⟨[], ?_, ?_, by simp, by simp⟩
      · simp [buildQueryClauses, Bind.bind, Except.bind, Pure.pure, Except.pure]
      · simp [build_query, Bind.bind, Except.bind, Pure.pure, Except.pure] at h
        simp [← h, renderClauses, String.append_assoc]
    | some e =>
      cases hte : test_datetime e with
      | error err =>
        simp [build_query, hte, Bind.bind, Except.bind, Pure.pure, Except.pure] at h
      | ok u =>
        refine ⟨[Clause.rangeStop e.isoformat], ?_, ?_, by simp [Clause.isFilter],
          by simp [Clause.isRange]⟩
        · simp [buildQueryClauses, hte, Bind.bind, Except.bind, Pure.pure, Except.pure]
        · simp [build_query, hte, Bind.bind, Except.bind, Pure.pure, Except.pure] at h
          simp [← h, renderClauses, Clause.render, String.append_assoc]
  | some s =>
    cases et with
    | none =>
      cases hts : test_datetime s with
      | error err =>
        simp [build_query, hts, Bind.bind, Except.bind, Pure.pure, Except.pure] at h
      | ok u =>
        refine ⟨[Clause.rangeStart s.isoformat], ?_, ?_, by simp [Clause.isFilter],
          by simp [Clause.isRange]⟩
        · simp [buildQueryClauses, hts, Bind.bind, Except.bind, Pure.pure, Except.pure]
        · simp [build_query, hts, Bind.bind, Except.bind, Pure.pure, Except.pure] at h
          simp [← h, renderClauses, Clause.render, String.append_assoc]
    | some e =>
      cases hts : test_datetime s with
      | error err =>
        simp [build_query, hts, Bind.bind, Except.bind, Pure.pure, Except.pure] at h
      | ok u =>
        cases hte : test_datetime e with
        | error err =>
          simp [build_query, hts, hte, Bind.bind, Except.bind, Pure.pure,
            Except.pure] at h
        | ok u' =>
          refine ⟨[Clause.rangeStartStop s.isoformat e.isoformat], ?_, ?_,
            by simp [Clause.isFilter], by simp [Clause.isRange]⟩
          · simp [buildQueryClauses, hts, hte, Bind.bind, Except.bind, Pure.pure,
              Except.pure]
          · simp [build_query, hts, hte, Bind.bind, Except.bind, Pure.pure,
              Except.pure] at h
            simp [← h, renderClauses, Clause.render, String.append_assoc]

/-- C2: every generated query contains exactly one filter clause per entry of
the field mapping, in mapping order, each of the exact filter form; the empty
mapping contributes no filter clause. -/
theorem c2_filter_clauses (project precision : String)
    (fields : List (String × String)) (st et : Option PyValue) (q : String)
    (h : build_query project fields st et precision = .ok q) :
    ∃ cs, buildQueryClauses project fields st et precision = .ok cs ∧
      renderClauses cs = q ∧
      cs.filter Clause.isFilter = fields.map (fun fv => Clause.filter fv.1 fv.2) ∧
      cs.countP Clause.isFilter = fields.length ∧
      (∀ f v, (Clause.filter f v).render =
        "\n                |> filter(fn: (r) => r[\"" ++ f ++ "\"] == \"" ++ v ++
          "\")\n            ") ∧
      (fields = [] → cs.countP Clause.isFilter = 0) := by
  obtain ⟨rangeClauses, hcs, hq, hcount, -⟩ :=
    build_query_ok_shape project fields st et precision q h
  refine ⟨_, hcs, ?_, ?_, ?_, ?_, ?_⟩
  · simp [renderClauses, renderClauses_append, renderClauses_filters, Clause.render,
      hq, String.append_assoc, String.append_empty]
  · have hnil : rangeClauses.filter Clause.isFilter = [] :=
      List.filter_eq_nil_iff.mpr (by
        intro c hc
        have := List.countP_eq_zero.mp hcount c hc
        simpa using this)
    simp [List.filter_append, List.filter_cons, Clause.isFilter, hnil,
      filters_filter_self]
  · simp [List.countP_append, List.countP_cons, Clause.isFilter, hcount,
      countP_isFilter_filters]
  · intro f v
    rfl
  · intro hf
    simp [hf, List.countP_append, List.countP_cons, Clause.isFilter, hcount]

/-- Witness for C2 at a concrete call with a two-entry mapping. -/
theorem c2_filter_clauses_witness :
    ∃ cs, buildQueryClauses "p" [("a", "1"), ("b", "2")] none none "5m" = .ok cs ∧
      renderClauses cs =
        fromClauseStr "p" ++ filterClauses [("a", "1"), ("b", "2")] ++
          aggregateClauseStr "5m" ∧
      cs.filter Clause.isFilter =
        [("a", "1"), ("b", "2")].map (fun fv => Clause.filter fv.1 fv.2) ∧
      cs.countP Clause.isFilter = ([("a", "1"), ("b", "2")] : List (String × String)).length ∧
      (∀ f v, (Clause.filter f v).render =
        "\n                |> filter(fn: (r) => r[\"" ++ f ++ "\"] == \"" ++ v ++
          "\")\n            ") ∧
      (([("a", "1"), ("b", "2")] : List (String × String)) = [] →
        cs.countP Clause.isFilter = 0) :=
  c2_filter_clauses "p" "5m" [("a", "1"), ("b", "2")] none none _ rfl

/-- Counterexample for C3 as stated: the generated string starts with the
f-string's newline and indentation, not with `from(bucket:`, and ends with
trailing whitespace after `yield(name: "mean")`. -/
theorem c3_counterexample :
    build_query "proj" [] none none "5m" =
      .ok (fromClauseStr "proj" ++ filterClauses [] ++ aggregateClauseStr "5m") ∧
    List.isPrefixOf ("from(bucket: \"proj\")".data)
      ((fromClauseStr "proj" ++ filterClauses [] ++ aggregateClauseStr "5m").data) =
        false ∧
    List.isSuffixOf ("yield(name: \"mean\")".data)
      ((fromClauseStr "proj" ++ filterClauses [] ++ aggregateClauseStr "5m").data) =
        false :=
  ⟨rfl, by decide, by decide⟩

/-- C3 (amended): every query is the `from(bucket: "<project>")` chunk
(wrapped in the f-string's fixed indentation whitespace), then the optional
range/filter clauses, then exactly the
`aggregateWindow(every: <precision>, fn: mean, createEmpty: true)` +
`yield(name: "mean")` suffix chunk (with its fixed indentation whitespace);
`precision` defaults to `"5m"`, and a call with a project name, no time
bounds and no filters emits exactly the from clause and the aggregation
suffix, with no range clause. -/
theorem c3_query_shape (project precision : String)
    (fields : List (String × String)) (st et : Option PyValue) (q : String)
    (h : build_query project fields st et precision = .ok q) :
    (∃ mid, q = fromClauseStr project ++ mid ++ aggregateClauseStr precision) ∧
    fromClauseStr project =
      "\n            from(bucket: \"" ++ project ++ "\")\n        " ∧
    aggregateClauseStr precision =
      "\n            |> aggregateWindow(every: " ++ precision ++
        ", fn: mean, createEmpty: true)\n            |> yield(name: \"mean\")\n        " ∧
    (∃ cs, buildQueryClauses project fields st et precision = .ok cs ∧
      cs.head? = some (Clause.fromBucket project) ∧
      cs.getLast? = some (Clause.aggregateWindow precision)) ∧
    defaultPrecision = "5m" ∧
    build_query project [] none none defaultPrecision =
      .ok (fromClauseStr project ++ filterClauses [] ++
        aggregateClauseStr defaultPrecision) ∧
    buildQueryClauses project [] none none defaultPrecision =
      .ok [Clause.fromBucket project, Clause.aggregateWindow defaultPrecision] ∧
    (buildQueryClauses project [] none none defaultPrecision).map
      (fun cs => cs.countP Clause.isRange) = .ok 0 := by
  obtain ⟨rangeClauses, hcs, hq, -, -⟩ :=
    build_query_ok_shape project fields st et precision q h
  refine ⟨⟨renderClauses rangeClauses ++ filterClauses fields, ?_⟩, rfl, rfl,
    ⟨_, hcs, rfl, ?_⟩, rfl, ?_, ?_, ?_⟩
  · simp [hq, String.append_assoc]
  · have hrw : Clause.fromBucket project ::
        (rangeClauses ++ (fields.map (fun fv => Clause.filter fv.1 fv.2) ++
          [Clause.aggregateWindow precision])) =
      (Clause.fromBucket project ::
        (rangeClauses ++ fields.map (fun fv => Clause.filter fv.1 fv.2))) ++
        [Clause.aggregateWindow precision] := by
      simp [List.append_assoc]
    rw [hrw, List.getLast?_concat]
  · simp [build_query, Bind.bind, Except.bind, Pure.pure, Except.pure,
      filterClauses]
  · simp [buildQueryClauses, Bind.bind, Except.bind, Pure.pure, Except.pure]
  · simp [buildQueryClauses, Bind.bind, Except.bind, Pure.pure, Except.pure,
      Except.map, List.countP_cons, Clause.isRange]

/-- Witness for C3 (amended) at a concrete call. -/
theorem c3_query_shape_witness :
    (∃ mid, fromClauseStr "proj" ++ filterClauses [] ++ aggregateClauseStr "5m" =
      fromClauseStr "proj" ++ mid ++ aggregateClauseStr "5m") ∧
    fromClauseStr "proj" =
      "\n            from(bucket: \"" ++ "proj" ++ "\")\n        " ∧
    aggregateClauseStr "5m" =
      "\n            |> aggregateWindow(every: " ++ "5m" ++
        ", fn: mean, createEmpty: true)\n            |> yield(name: \"mean\")\n        " ∧
    (∃ cs, buildQueryClauses "proj" [] none none "5m" = .ok cs ∧
      cs.head? = some (Clause.fromBucket "proj") ∧
      cs.getLast? = some (Clause.aggregateWindow "5m")) ∧
    defaultPrecision = "5m" ∧
    build_query "proj" [] none none defaultPrecision =
      .ok (fromClauseStr "proj" ++ filterClauses [] ++
        aggregateClauseStr defaultPrecision) ∧
    buildQueryClauses "proj" [] none none defaultPrecision =
      .ok [Clause.fromBucket "proj", Clause.aggregateWindow defaultPrecision] ∧
    (buildQueryClauses "proj" [] none none defaultPrecision).map
      (fun cs => cs.countP Clause.isRange) = .ok 0 :=
  c3_query_shape "proj" "5m" [] none none _ rfl

theorem test_datetime_invalid (x : PyValue) (h : x.invalidTimestamp = true) :
    ∃ e, test_datetime x = .error e ∧ e.isInvalidTimestamp = true := by
  cases x with
  | notADatetime => exact ⟨_, rfl, rfl⟩
  | datetime d =>
    simp [PyValue.invalidTimestamp, Option.isNone_iff_eq_none] at h
    exact ⟨PyError.invalidTimestampNaive, by simp [test_datetime, h], rfl⟩

theorem test_datetime_valid (x : PyValue) (h : x.invalidTimestamp = false) :
    test_datetime x = .ok () := by
  cases x with
  | notADatetime => simp [PyValue.invalidTimestamp] at h
  | datetime d =>
    cases hd : d.tzinfo with
    | none => simp [PyValue.invalidTimestamp, hd] at h
    | some off => simp [test_datetime, hd]

theorem test_datetime_error_class (x : PyValue) (e : PyError)
    (h : test_datetime x = .error e) : e.isInvalidTimestamp = true := by
  cases x with
  | notADatetime =>
    simp [test_datetime] at h
    simp [← h, PyError.isInvalidTimestamp]
  | datetime d =>
    by_cases hn : d.tzinfo = none
    · simp [test_datetime, hn] at h
      simp [← h, PyError.isInvalidTimestamp]
    · simp [test_datetime, hn] at h

/-- C4: a supplied start or end timestamp that is not a datetime or is naive
makes `build_query` fail with an `InvalidTimestampError`-class exception (so
the invalid query string is never produced, hence never sent); conversely,
when every supplied timestamp is a timezone-aware datetime, the builder
succeeds. -/
theorem c4_timestamp_validation (project precision : String)
    (fields : List (String × String)) (st et : Option PyValue) :
    (((∃ x, st = some x ∧ x.invalidTimestamp = true) ∨
      (∃ x, et = some x ∧ x.invalidTimestamp = true)) →
      ∃ e, build_query project fields st et precision = .error e ∧
        e.isInvalidTimestamp = true) ∧
    ((∀ x, st = some x → x.invalidTimestamp = false) →
     (∀ x, et = some x → x.invalidTimestamp = false) →
      ∃ q, build_query project fields st et precision = .ok q) := by
  constructor
  · intro hinv
    cases st with
    | none =>
      cases et with
      | none =>
        rcases hinv with ⟨x, hx, -⟩ | ⟨x, hx, -⟩ <;> simp at hx
      | some e =>
        rcases hinv with ⟨x, hx, -⟩ | ⟨x, hx, hxb⟩
        · simp at hx
        · obtain rfl : e = x := by simpa using hx
          obtain ⟨err, herr, hic⟩ := test_datetime_invalid e hxb
          exact ⟨err, by simp [build_query, herr, Bind.bind, Except.bind], hic⟩
    | some s =>
      cases et with
      | none =>
        rcases hinv with ⟨x, hx, hxb⟩ | ⟨x, hx, -⟩
        · obtain rfl : s = x := by simpa using hx
          obtain ⟨err, herr, hic⟩ := test_datetime_invalid s hxb
          exact ⟨err, by simp [build_query, herr, Bind.bind, Except.bind], hic⟩
        · simp at hx
      | some e =>
        rcases hinv with ⟨x, hx, hxb⟩ | ⟨x, hx, hxb⟩
        · obtain rfl : s = x := by simpa using hx
          obtain ⟨err, herr, hic⟩ := test_datetime_invalid s hxb
          exact ⟨err, by simp [build_query, herr, Bind.bind, Except.bind], hic⟩
        · obtain rfl : e = x := by simpa using hx
          cases hts : test_datetime s with
          | error err =>
            exact ⟨err, by simp [build_query, hts, Bind.bind, Except.bind],
              test_datetime_error_class s err hts⟩
          | ok u =>
            obtain ⟨err, herr, hic⟩ := test_datetime_invalid e hxb
            exact ⟨err, by simp [build_query, hts, herr, Bind.bind, Except.bind],
              hic⟩
  · intro h1 h2
    cases st with
    | none =>
      cases et with
      | none =>
        simp [build_query, Bind.bind, Except.bind, Pure.pure, Except.pure]
      | some e =>
        have he := test_datetime_valid e (h2 e rfl)
        simp [build_query, he, Bind.bind, Except.bind, Pure.pure, Except.pure]
    | some s =>
      have hs := test_datetime_valid s (h1 s rfl)
      cases et with
      | none =>
        simp [build_query, hs, Bind.bind, Except.bind, Pure.pure, Except.pure]
      | some e =>
        have he := test_datetime_valid e (h2 e rfl)
        simp [build_query, hs, he, Bind.bind, Except.bind, Pure.pure, Except.pure]

/-- Witness for C4: a non-datetime start fails, a naive datetime start
fails, and aware datetimes on both bounds succeed. -/
theorem c4_timestamp_validation_witness :
    (∃ e, build_query "p" [] (some .notADatetime) none "5m" = .error e ∧
      e.isInvalidTimestamp = true) ∧
    (∃ e, build_query "p" []
        (some (.datetime ⟨2021, 1, 1, 0, 0, 0, 0, none⟩)) none "5m" = .error e ∧
      e.isInvalidTimestamp = true) ∧
    (∃ q, build_query "p" [] (some (.datetime dtA)) (some (.datetime dtB)) "5m" =
      .ok q) :=
  ⟨(c4_timestamp_validation "p" "5m" [] (some .notADatetime) none).1
      (Or.inl ⟨_, rfl, rfl⟩),
   (c4_timestamp_validation "p" "5m" []
      (some (.datetime ⟨2021, 1, 1, 0, 0, 0, 0, none⟩)) none).1
      (Or.inl ⟨_, rfl, rfl⟩),
   (c4_timestamp_validation "p" "5m" [] (some (.datetime dtA))
      (some (.datetime dtB))).2
      (fun x hx => by cases hx; rfl) (fun x hx => by cases hx; rfl)⟩

/-- C5: with `additional_tags` present, `write_a_dataframe` forwards the
supplied tag-column list with each tag name appended in mapping order, and a
frame equal to the original columns followed by one constant broadcast
column per tag, on the original index; without `additional_tags`, frame and
tag list are forwarded unchanged.  Includes the spec's 3-row example. -/
theorem c5_write_a_dataframe (project measurement : String) (df : DataFrame)
    (tc : List String) (tags : List (String × String)) :
    write_a_dataframe project measurement df tc (some tags) =
      ({ bucket := project
         record :=
           { index := df.index
             cols := df.cols ++
               tags.map (fun tv => (tv.1, List.replicate df.len tv.2)) }
         data_frame_measurement_name := measurement
         data_frame_tag_columns := tc ++ tags.map Prod.fst },
       tc ++ tags.map Prod.fst) ∧
    write_a_dataframe project measurement df tc none =
      ({ bucket := project
         record := df
         data_frame_measurement_name := measurement
         data_frame_tag_columns := tc }, tc) ∧
    (write_a_dataframe "proj" "m"
        { index := [0, 1, 2], cols := [("temp", ["1", "2", "3"])] }
        ["device"] (some [("site", "A")])).1.data_frame_tag_columns =
      ["device", "site"] ∧
    (write_a_dataframe "proj" "m"
        { index := [0, 1, 2], cols := [("temp", ["1", "2", "3"])] }
        ["device"] (some [("site", "A")])).1.record =
      { index := [0, 1, 2],
        cols := [("temp", ["1", "2", "3"]), ("site", ["A", "A", "A"])] } :=
  ⟨rfl, rfl, rfl, rfl⟩

/-- C9: the caller-visible `tag_columns` list object ends the call holding
its old contents plus the appended tag names exactly when `additional_tags`
is present, and is left unchanged when it is absent; since the Python
default `tag_columns=[]` is one shared list object, a second call that omits
`tag_columns` starts from the contents the first call left behind, so its
forwarded tag-column list also contains the first call's tag names. -/
theorem c9_tag_columns_mutation (project measurement : String) (df : DataFrame)
    (tc : List String) (tags t1 t2 : List (String × String)) :
    (write_a_dataframe project measurement df tc (some tags)).2 =
      tc ++ tags.map Prod.fst ∧
    (write_a_dataframe project measurement df tc none).2 = tc ∧
    (write_a_dataframe project measurement df
        ((write_a_dataframe project measurement df [] (some t1)).2)
        (some t2)).1.data_frame_tag_columns =
      t1.map Prod.fst ++ t2.map Prod.fst :=
  ⟨rfl, rfl, rfl⟩

/-- C6: with no external client, each of host, port, token is mandatory — a
missing one fails with a `ConfigurationError`-class exception before any
client or delegate is built; with all three, or with a pre-built client, the
constructor succeeds and derives the three delegates. -/
theorem c6_construction (host : Option String) (port : Option Nat)
    (organization : String) (token : Option String) :
    (∀ c : InfluxDBClient,
      TimeseriesClient.init host port organization token (some c) =
        .ok { _client := c
              _write_api := { client := c, synchronous := true }
              _query_api := { client := c }
              _bucket_api := { client := c } }) ∧
    ((host = none ∨ port = none ∨ token = none) →
      ∃ e, TimeseriesClient.init host port organization token none = .error e ∧
        (e = .missingHost ∨ e = .missingPort ∨ e = .missingToken)) ∧
    (∀ h p t, host = some h → port = some p → token = some t →
      TimeseriesClient.init host port organization token none =
        .ok (let c : InfluxDBClient :=
               { url := "https://" ++ h ++ ":" ++ toString p
                 token := t
                 org := organization }
             { _client := c
               _write_api := { client := c, synchronous := true }
               _query_api := { client := c }
               _bucket_api := { client := c } })) := by
  refine ⟨fun c => rfl, ?_, ?_⟩
  · intro hmiss
    cases host with
    | none =>
      exact ⟨.missingHost, rfl, Or.inl rfl⟩
    | some h =>
      cases port with
      | none => exact ⟨.missingPort, rfl, Or.inr (Or.inl rfl)⟩
      | some p =>
        cases token with
        | none => exact ⟨.missingToken, rfl, Or.inr (Or.inr rfl)⟩
        | some t => rcases hmiss with hm | hm | hm <;> simp at hm
  · intro h p t hh hp ht
    subst hh; subst hp; subst ht
    rfl

/-- Witness for C6: full credentials succeed, a missing host fails. -/
theorem c6_construction_witness :
    TimeseriesClient.init (some "influx.example") (some 8086) "GEWV" (some "tok")
        none =
      .ok (let c : InfluxDBClient :=
             { url := "https://" ++ "influx.example" ++ ":" ++ toString 8086
               token := "tok"
               org := "GEWV" }
           { _client := c
             _write_api := { client := c, synchronous := true }
             _query_api := { client := c }
             _bucket_api := { client := c } }) ∧
    (∃ e, TimeseriesClient.init none (some 8086) "GEWV" (some "tok") none =
        .error e ∧
      (e = .missingHost ∨ e = .missingPort ∨ e = .missingToken)) :=
  ⟨(c6_construction (some "influx.example") (some 8086) "GEWV" (some "tok")).2.2
      "influx.example" 8086 "tok" rfl rfl rfl,
   (c6_construction none (some 8086) "GEWV" (some "tok")).2.1 (Or.inl rfl)⟩

/-- C7: `create_bucket` swallows exactly the 422 bucket-already-exists
`ApiException` (so a repeated creation returns normally); every other
failure of the delegate propagates unchanged, and success raises nothing. -/
theorem c7_create_bucket (e : ApiException) (msg : String) :
    create_bucket .success = .ok () ∧
    create_bucket (.apiError ⟨422⟩) = .ok () ∧
    (e.status ≠ 422 → create_bucket (.apiError e) = .error (.api e)) ∧
    create_bucket (.otherError msg) = .error (.other msg) := by
  refine ⟨rfl, rfl, ?_, rfl⟩
  intro h
  simp [create_bucket, h]

/-- Witness for C7: a 500 propagates, a 422 is swallowed. -/
theorem c7_create_bucket_witness :
    create_bucket (.apiError ⟨500⟩) = .error (.api ⟨500⟩) ∧
    create_bucket (.apiError ⟨422⟩) = .ok () :=
  ⟨(c7_create_bucket ⟨500⟩ "x").2.2.1 (by decide),
   (c7_create_bucket ⟨500⟩ "x").2.1⟩

theorem build_query_error_class (project precision : String)
    (fields : List (String × String)) (st et : Option PyValue) (e : PyError)
    (h : build_query project fields st et precision = .error e) :
    e.isInvalidTimestamp = true := by
  cases st with
  | none =>
    cases et with
    | none =>
      simp [build_query, Bind.bind, Except.bind, Pure.pure, Except.pure] at h
    | some x =>
      cases hte : test_datetime x with
      | error err =>
        simp [build_query, hte, Bind.bind, Except.bind, Pure.pure,
          Except.pure] at h
        exact h ▸ test_datetime_error_class x err hte
      | ok u =>
        simp [build_query, hte, Bind.bind, Except.bind, Pure.pure,
          Except.pure] at h
  | some s =>
    cases hts : test_datetime s with
    | error err =>
      cases et <;>
        · simp [build_query, hts, Bind.bind, Except.bind, Pure.pure,
            Except.pure] at h
          exact h ▸ test_datetime_error_class s err hts
    | ok u =>
      cases et with
      | none =>
        simp [build_query, hts, Bind.bind, Except.bind, Pure.pure,
          Except.pure] at h
      | some x =>
        cases hte : test_datetime x with
        | error err =>
          simp [build_query, hts, hte, Bind.bind, Except.bind, Pure.pure,
            Except.pure] at h
          exact h ▸ test_datetime_error_class x err hte
        | ok u' =>
          simp [build_query, hts, hte, Bind.bind, Except.bind, Pure.pure,
            Except.pure] at h

/-- C8: the guard `if not self.health:` in `get_points` / `get_dataframe`
tests the truthiness of the bound-method reference, which is always truthy,
so both reads always reduce to running the built query: the unreachable
branch is never taken (the only errors they raise come from timestamp
validation) and the result does not depend on what `health()` would have
returned, i.e. `health()` is never invoked. -/
theorem c8_health_guard (self : TimeseriesClient) (h₁ h₂ : Bool)
    (runQuery : String → List String) (runDf : String → DataFrame)
    (project precision : String) (fields : List (String × String))
    (st et : Option PyValue) :
    get_points self h₁ runQuery project fields st et precision =
      (build_query project fields st et precision).map runQuery ∧
    get_points self h₁ runQuery project fields st et precision =
      get_points self h₂ runQuery project fields st et precision ∧
    get_dataframe self h₁ runDf project fields st et precision =
      (build_query project fields st et precision).map runDf ∧
    get_dataframe self h₁ runDf project fields st et precision =
      get_dataframe self h₂ runDf project fields st et precision ∧
    (∀ e, get_points self h₁ runQuery project fields st et precision = .error e →
      e.isInvalidTimestamp = true ∧ e ≠ .unreachable) ∧
    (∀ e, get_dataframe self h₁ runDf project fields st et precision = .error e →
      e.isInvalidTimestamp = true ∧ e ≠ .unreachable) ∧
    healthMethodRefTruthy self = true := by
  refine ⟨rfl, rfl, rfl, rfl, ?_, ?_, rfl⟩
  · intro e he
    have he' : (build_query project fields st et precision).map runQuery =
        .error e := he
    cases hb : build_query project fields st et precision with
    | ok q => rw [hb] at he'; simp [Except.map] at he'
    | error err =>
      rw [hb] at he'
      simp [Except.map] at he'
      have hclass :=
        build_query_error_class project precision fields st et err hb
      subst he'
      exact ⟨hclass, by intro hu; subst hu; simp [PyError.isInvalidTimestamp] at hclass⟩
  · intro e he
    have he' : (build_query project fields st et precision).map runDf =
        .error e := he
    cases hb : build_query project fields st et precision with
    | ok q => rw [hb] at he'; simp [Except.map] at he'
    | error err =>
      rw [hb] at he'
      simp [Except.map] at he'
      have hclass :=
        build_query_error_class project precision fields st et err hb
      subst he'
      exact ⟨hclass, by intro hu; subst hu; simp [PyError.isInvalidTimestamp] at hclass⟩

/-- Witness for C8 at concrete calls: the guard never fires even with an
unhealthy probe answer, and a raised error is a timestamp error. -/
theorem c8_health_guard_witness :
    get_points tcW false (fun _ => []) "p" [] none none "5m" =
      (build_query "p" [] none none "5m").map (fun _ => []) ∧
    (get_points tcW false (fun _ => []) "p" [] (some .notADatetime) none "5m" =
        .error PyError.invalidTimestampType →
      PyError.invalidTimestampType.isInvalidTimestamp = true ∧
        PyError.invalidTimestampType ≠ .unreachable) :=
  ⟨(c8_health_guard tcW false true (fun _ => []) (fun _ => dfW) "p" "5m" []
      none none).1,
   (c8_health_guard tcW false true (fun _ => []) (fun _ => dfW) "p" "5m" []
      (some .notADatetime) none).2.2.2.2.1 PyError.invalidTimestampType⟩

theorem filterClauses_mem (fields : List (String × String))
    (fv : String × String) (hmem : fv ∈ fields) :
    ∃ a b, filterClauses fields = a ++ (filterClauseStr fv.1 fv.2 ++ b) := by
  induction fields with
  | nil => cases hmem
  | cons g rest ih =>
    obtain ⟨gf, gv⟩ := g
    rcases List.mem_cons.mp hmem with h | h
    · exact ⟨"", filterClauses rest, by simp [filterClauses, h]⟩
    · obtain ⟨a, b, hab⟩ := ih h
      exact ⟨filterClauseStr gf gv ++ a, b, by
        simp [filterClauses, hab, String.append_assoc]⟩

/-- C10: `build_query` performs no escaping or validation of the project
name, field names, field values, or precision: whenever it returns a query,
each of those inputs occurs verbatim as a substring of it. -/
theorem c10_no_escaping (project precision : String)
    (fields : List (String × String)) (st et : Option PyValue) (q : String)
    (h : build_query project fields st et precision = .ok q) :
    (∃ a b, q = a ++ project ++ b) ∧
    (∃ a b, q = a ++ precision ++ b) ∧
    (∀ fv ∈ fields, (∃ a b, q = a ++ fv.1 ++ b) ∧ (∃ a b, q = a ++ fv.2 ++ b)) := by
  obtain ⟨rp, -, hq, -, -⟩ := build_query_ok_shape project fields st et precision q h
  refine ⟨?_, ?_, ?_⟩
  · exact ⟨"\n            from(bucket: \"",
      "\")\n        " ++ (renderClauses rp ++
        (filterClauses fields ++ aggregateClauseStr precision)),
      by simp [hq, fromClauseStr, String.append_assoc]⟩
  · exact ⟨fromClauseStr project ++ (renderClauses rp ++
        (filterClauses fields ++ "\n            |> aggregateWindow(every: ")),
      ", fn: mean, createEmpty: true)\n            |> yield(name: \"mean\")\n        ",
      by simp [hq, aggregateClauseStr, String.append_assoc]⟩
  · intro fv hfv
    obtain ⟨a, b, hab⟩ := filterClauses_mem fields fv hfv
    constructor
    · exact ⟨fromClauseStr project ++ (renderClauses rp ++
          (a ++ "\n                |> filter(fn: (r) => r[\"")),
        "\"] == \"" ++ (fv.2 ++ ("\")\n            " ++
          (b ++ aggregateClauseStr precision))),
        by simp [hq, hab, filterClauseStr, String.append_assoc]⟩
    · exact ⟨fromClauseStr project ++ (renderClauses rp ++
          (a ++ ("\n                |> filter(fn: (r) => r[\"" ++
            (fv.1 ++ "\"] == \"")))),
        "\")\n            " ++ (b ++ aggregateClauseStr precision),
        by simp [hq, hab, filterClauseStr, String.append_assoc]⟩

/-- Witness for C10 at a concrete call: the project, field pair and
precision all occur verbatim in the generated query. -/
theorem c10_no_escaping_witness :
    (∃ a b, fromClauseStr "pr\"oj" ++ filterClauses [("f\"ld", "v\"al")] ++
        aggregateClauseStr "7m\n" = a ++ "pr\"oj" ++ b) ∧
    (∃ a b, fromClauseStr "pr\"oj" ++ filterClauses [("f\"ld", "v\"al")] ++
        aggregateClauseStr "7m\n" = a ++ "7m\n" ++ b) ∧
    (∀ fv ∈ ([("f\"ld", "v\"al")] : List (String × String)),
      (∃ a b, fromClauseStr "pr\"oj" ++ filterClauses [("f\"ld", "v\"al")] ++
          aggregateClauseStr "7m\n" = a ++ fv.1 ++ b) ∧
      (∃ a b, fromClauseStr "pr\"oj" ++ filterClauses [("f\"ld", "v\"al")] ++
          aggregateClauseStr "7m\n" = a ++ fv.2 ++ b)) :=
  c10_no_escaping "pr\"oj" "7m\n" [("f\"ld", "v\"al")] none none _ rfl
